import Mathlib

deriving instance DecidableEq for Except

/-!
Verification of the call-history reconciliation engine of
`ts/util/callDisposition.ts` (Signal-Desktop excerpt).

The definitions below are a shallow embedding of the transition state machine:
`transitionCallHistory`, `transitionTimestamp`, `transitionDirectCallStatus`,
`transitionGroupCallStatus`, `transitionAdhocCallStatus`, together with the
sync decision (`statusToProto`, `shouldSyncStatus`, `getProtoForCallHistory`,
`updateRemoteCallHistory`) and `updateLocalGroupCallHistoryTimestamp`.

TypeScript `throw` (strictAssert failures, missingCaseError, explicit errors)
is modelled with `Except String`; epoch-millisecond timestamps are `Nat`;
`T | null` is `Option T`.
-/

namespace CallDisposition

/-- Modelled from the spec: the status enums of `types/CallDisposition` are not
part of the excerpt; §4.3 lists the per-mode states and the `statusToProto`
table in the source enumerates the underlying `CallStatusValue` members
(`Accepted, Declined, Deleted, Missed, Pending, GenericGroupCall, OutgoingRing,
Ringing, Joined, JoinedAdhoc`). The three mode-specific enums alias these
shared values (aliases below); in particular the adhoc `Joined` state is the
distinct `JoinedAdhoc` value, which is why it syncs as `Accepted` while the
group `Joined` value does not sync. -/
inductive CallStatusValue where
  | Accepted
  | Declined
  | Deleted
  | Missed
  | Pending
  | GenericGroupCall
  | OutgoingRing
  | Ringing
  | Joined
  | JoinedAdhoc
  deriving DecidableEq, Repr, Fintype

abbrev CallStatus := CallStatusValue

/- Mode-specific enum aliases, as in `types/CallDisposition`. -/
abbrev DirectCallStatus.Pending : CallStatusValue := CallStatusValue.Pending
abbrev DirectCallStatus.Missed : CallStatusValue := CallStatusValue.Missed
abbrev DirectCallStatus.Accepted : CallStatusValue := CallStatusValue.Accepted
abbrev DirectCallStatus.Declined : CallStatusValue := CallStatusValue.Declined
abbrev DirectCallStatus.Deleted : CallStatusValue := CallStatusValue.Deleted
abbrev GroupCallStatus.GenericGroupCall : CallStatusValue := CallStatusValue.GenericGroupCall
abbrev GroupCallStatus.OutgoingRing : CallStatusValue := CallStatusValue.OutgoingRing
abbrev GroupCallStatus.Ringing : CallStatusValue := CallStatusValue.Ringing
abbrev GroupCallStatus.Joined : CallStatusValue := CallStatusValue.Joined
abbrev GroupCallStatus.Accepted : CallStatusValue := CallStatusValue.Accepted
abbrev GroupCallStatus.Missed : CallStatusValue := CallStatusValue.Missed
abbrev GroupCallStatus.Declined : CallStatusValue := CallStatusValue.Declined
abbrev GroupCallStatus.Deleted : CallStatusValue := CallStatusValue.Deleted
abbrev AdhocCallStatus.Pending : CallStatusValue := CallStatusValue.Pending
abbrev AdhocCallStatus.Joined : CallStatusValue := CallStatusValue.JoinedAdhoc
abbrev AdhocCallStatus.Deleted : CallStatusValue := CallStatusValue.Deleted

/-- Local call events (`LocalCallEvent` in `types/CallDisposition`); the
members are exactly the ones used by the transition functions in the source. -/
inductive LocalCallEvent where
  | Started
  | Ringing
  | Accepted
  | Declined
  | Hangup
  | RemoteHangup
  | Missed
  | Delete
  deriving DecidableEq, Repr, Fintype

/-- Remote (sync) call events (`RemoteCallEvent` in `types/CallDisposition`). -/
inductive RemoteCallEvent where
  | Accepted
  | NotAccepted
  | Delete
  deriving DecidableEq, Repr, Fintype

/-- `CallEvent = LocalCallEvent | RemoteCallEvent`; local and remote event
values are distinct (the source compares against each side separately). -/
inductive CallEvent where
  | loc (e : LocalCallEvent)
  | remote (e : RemoteCallEvent)
  deriving DecidableEq, Repr, Fintype

inductive CallMode where
  | Direct
  | Group
  | Adhoc
  deriving DecidableEq, Repr, Fintype

inductive CallType where
  | Audio
  | Video
  | Group
  | Adhoc
  deriving DecidableEq, Repr, Fintype

inductive CallDirection where
  | Incoming
  | Outgoing
  deriving DecidableEq, Repr, Fintype

/-- `CallEventDetails`: one observed event (identity fields plus the event). -/
structure CallEventDetails where
  callId : String
  peerId : String
  ringerId : Option String
  mode : CallMode
  type : CallType
  direction : CallDirection
  event : CallEvent
  timestamp : Nat
  eventSource : String
  deriving DecidableEq, Repr

/-- `CallHistoryDetails`: the durable per-call record. -/
structure CallHistoryDetails where
  callId : String
  peerId : String
  ringerId : Option String
  mode : CallMode
  type : CallType
  direction : CallDirection
  status : CallStatus
  timestamp : Nat
  deriving DecidableEq, Repr

/-- `strictAssert(condition, message)`: continue when the condition holds,
throw the message otherwise. -/
def strictAssert (condition : Prop) [Decidable condition] (message : String) :
    Except String Unit :=
  if condition then Except.ok () else Except.error message

/-- The six `strictAssert` calls at the top of `transitionCallHistory`
(lines 560-570): with a prior record, every identity field of the event must
match it; a `null` event `ringerId` is tolerated. -/
def transitionIdentityAsserts (callHistory : Option CallHistoryDetails)
    (callEvent : CallEventDetails) : Except String Unit :=
  match callHistory with
  | none => Except.ok ()
  | some ch =>
    if ch.callId = callEvent.callId then
      if ch.peerId = callEvent.peerId then
        if callEvent.ringerId = none ∨ ch.ringerId = callEvent.ringerId then
          if ch.direction = callEvent.direction then
            if ch.type = callEvent.type then
              if ch.mode = callEvent.mode then Except.ok ()
              else Except.error "mode must be same"
            else Except.error "type must be same"
          else Except.error "direction must be same"
        else Except.error "ringerId must be same if it exists"
      else Except.error "peerId must be same"
    else Except.error "callId must be same"

/-- `transitionTimestamp` (lines 614-680). -/
def transitionTimestamp (callHistory : Option CallHistoryDetails)
    (callEvent : CallEventDetails) : Except String Nat :=
  let latestTimestamp :=
    Nat.max callEvent.timestamp ((callHistory.map (·.timestamp)).getD 0)
  match callHistory with
  | none =>
    -- Always accept the timestamp if we have no other timestamps.
    Except.ok callEvent.timestamp
  | some ch =>
    -- Deleted call history should never be changed
    if ch.status = DirectCallStatus.Deleted ∨
        ch.status = GroupCallStatus.Deleted ∨
        ch.status = AdhocCallStatus.Deleted then
      Except.ok ch.timestamp
    -- Accepted call history should only be changed if we get a remote accepted
    -- event with possibly a better timestamp.
    else if ch.status = DirectCallStatus.Accepted ∨
        ch.status = GroupCallStatus.Accepted ∨
        ch.status = GroupCallStatus.Joined ∨
        ch.status = AdhocCallStatus.Joined then
      if callEvent.event = CallEvent.remote RemoteCallEvent.Accepted then
        Except.ok latestTimestamp
      else
        Except.ok ch.timestamp
    -- Declined call history should only be changed on a remote not-accepted
    -- event with possibly a better timestamp.
    else if ch.status = DirectCallStatus.Declined ∨
        ch.status = GroupCallStatus.Declined then
      if callEvent.event = CallEvent.remote RemoteCallEvent.NotAccepted then
        Except.ok latestTimestamp
      else
        Except.ok ch.timestamp
    -- We don't care about holding onto timestamps that were from these states
    else if ch.status = DirectCallStatus.Pending ∨
        ch.status = GroupCallStatus.GenericGroupCall ∨
        ch.status = GroupCallStatus.OutgoingRing ∨
        ch.status = GroupCallStatus.Ringing ∨
        ch.status = DirectCallStatus.Missed ∨
        ch.status = GroupCallStatus.Missed ∨
        ch.status = AdhocCallStatus.Pending then
      Except.ok latestTimestamp
    else
      Except.error "missingCaseError: callHistory.status"

/-- `transitionDirectCallStatus` (lines 682-746). -/
def transitionDirectCallStatus (status : Option CallStatus)
    (callEvent : CallEvent) (direction : CallDirection) :
    Except String CallStatus :=
  -- In all cases if we get a delete event, we need to delete the call, and
  -- never transition from deleted.
  if callEvent = CallEvent.remote RemoteCallEvent.Delete ∨
      callEvent = CallEvent.loc LocalCallEvent.Delete ∨
      status = some DirectCallStatus.Deleted then
    Except.ok DirectCallStatus.Deleted
  else if callEvent = CallEvent.remote RemoteCallEvent.Accepted ∨
      callEvent = CallEvent.loc LocalCallEvent.Accepted then
    Except.ok DirectCallStatus.Accepted
  else if status = some DirectCallStatus.Accepted then
    Except.ok DirectCallStatus.Accepted
  else if callEvent = CallEvent.remote RemoteCallEvent.NotAccepted then
    if status = some DirectCallStatus.Declined then
      Except.ok DirectCallStatus.Declined
    else
      Except.ok DirectCallStatus.Missed
  else if callEvent = CallEvent.loc LocalCallEvent.Missed then
    Except.ok DirectCallStatus.Missed
  else if callEvent = CallEvent.loc LocalCallEvent.Declined then
    Except.ok DirectCallStatus.Declined
  else if callEvent = CallEvent.loc LocalCallEvent.Hangup then
    if direction = CallDirection.Incoming then
      Except.ok DirectCallStatus.Declined
    else
      Except.ok DirectCallStatus.Missed
  else if callEvent = CallEvent.loc LocalCallEvent.RemoteHangup then
    if direction = CallDirection.Incoming then
      Except.ok DirectCallStatus.Missed
    else
      Except.ok DirectCallStatus.Declined
  else if callEvent = CallEvent.loc LocalCallEvent.Started ∨
      callEvent = CallEvent.loc LocalCallEvent.Ringing then
    Except.ok DirectCallStatus.Pending
  else
    Except.error "missingCaseError: callEvent"

/-- `transitionGroupCallStatus` (lines 748-827). -/
def transitionGroupCallStatus (status : Option CallStatus)
    (event : CallEvent) (direction : CallDirection) :
    Except String CallStatus :=
  -- In all cases if we get a delete event, we need to delete the call, and
  -- never transition from deleted.
  if event = CallEvent.remote RemoteCallEvent.Delete ∨
      event = CallEvent.loc LocalCallEvent.Delete ∨
      status = some GroupCallStatus.Deleted then
    Except.ok GroupCallStatus.Deleted
  else if status = some GroupCallStatus.Accepted then
    Except.ok GroupCallStatus.Accepted
  else if event = CallEvent.remote RemoteCallEvent.NotAccepted then
    Except.error "callHistoryDetails: Group calls shouldn't send NotAccepted"
  else if event = CallEvent.remote RemoteCallEvent.Accepted ∨
      event = CallEvent.loc LocalCallEvent.Accepted then
    match status with
    | none => Except.ok GroupCallStatus.Joined
    | some s =>
      if s = GroupCallStatus.Ringing ∨ s = GroupCallStatus.Missed ∨
          s = GroupCallStatus.Declined then
        Except.ok GroupCallStatus.Accepted
      else if s = GroupCallStatus.GenericGroupCall then
        Except.ok GroupCallStatus.Joined
      else if s = GroupCallStatus.Joined ∨ s = GroupCallStatus.OutgoingRing then
        Except.ok s
      else
        Except.error "missingCaseError: status"
  else if event = CallEvent.loc LocalCallEvent.Started then
    Except.ok GroupCallStatus.GenericGroupCall
  else if event = CallEvent.loc LocalCallEvent.Ringing then
    Except.ok GroupCallStatus.Ringing
  else if event = CallEvent.loc LocalCallEvent.Missed then
    Except.ok GroupCallStatus.Missed
  else if event = CallEvent.loc LocalCallEvent.Declined then
    Except.ok GroupCallStatus.Declined
  else if event = CallEvent.loc LocalCallEvent.Hangup then
    if direction = CallDirection.Incoming then
      Except.ok GroupCallStatus.Declined
    else
      Except.ok GroupCallStatus.Missed
  else if event = CallEvent.loc LocalCallEvent.RemoteHangup then
    if direction = CallDirection.Incoming then
      Except.ok GroupCallStatus.Missed
    else
      Except.ok GroupCallStatus.Declined
  else
    Except.error "missingCaseError: event"

/-- `transitionAdhocCallStatus` (lines 829-878). -/
def transitionAdhocCallStatus (status : Option CallStatus)
    (callEvent : CallEvent) (_direction : CallDirection) :
    Except String CallStatus :=
  -- In all cases if we get a delete event, we need to delete the call, and
  -- never transition from deleted.
  if callEvent = CallEvent.remote RemoteCallEvent.Delete ∨
      callEvent = CallEvent.loc LocalCallEvent.Delete ∨
      status = some AdhocCallStatus.Deleted then
    Except.ok AdhocCallStatus.Deleted
  -- The Accepted event is used to indicate we have fully joined an adhoc call.
  else if callEvent = CallEvent.remote RemoteCallEvent.Accepted ∨
      callEvent = CallEvent.loc LocalCallEvent.Accepted then
    Except.ok AdhocCallStatus.Joined
  else if status = some AdhocCallStatus.Joined then
    Except.ok AdhocCallStatus.Joined
  -- Ringing and corresponding events are not supported for adhoc calls but are
  -- handled to be exhaustive.
  else if callEvent = CallEvent.remote RemoteCallEvent.NotAccepted ∨
      callEvent = CallEvent.loc LocalCallEvent.Missed ∨
      callEvent = CallEvent.loc LocalCallEvent.Declined ∨
      callEvent = CallEvent.loc LocalCallEvent.Hangup ∨
      callEvent = CallEvent.loc LocalCallEvent.RemoteHangup ∨
      callEvent = CallEvent.loc LocalCallEvent.Started ∨
      callEvent = CallEvent.loc LocalCallEvent.Ringing then
    Except.ok AdhocCallStatus.Pending
  else
    Except.error "missingCaseError: callEvent"

/-- The mode dispatch inside `transitionCallHistory` (lines 575-595). -/
def transitionStatus (mode : CallMode) (prevStatus : Option CallStatus)
    (event : CallEvent) (direction : CallDirection) :
    Except String CallStatus :=
  match mode with
  | CallMode.Direct => transitionDirectCallStatus prevStatus event direction
  | CallMode.Group => transitionGroupCallStatus prevStatus event direction
  | CallMode.Adhoc => transitionAdhocCallStatus prevStatus event direction

/-- `transitionCallHistory` (lines 554-612): identity asserts, mode dispatch
for the new status, timestamp merge, and the result record built from the
event's identity fields (including the event's `ringerId`). -/
def transitionCallHistory (callHistory : Option CallHistoryDetails)
    (callEvent : CallEventDetails) : Except String CallHistoryDetails :=
  match transitionIdentityAsserts callHistory callEvent with
  | Except.error msg => Except.error msg
  | Except.ok () =>
    match transitionStatus callEvent.mode
        (callHistory.map CallHistoryDetails.status)
        callEvent.event callEvent.direction with
    | Except.error msg => Except.error msg
    | Except.ok status =>
      match transitionTimestamp callHistory callEvent with
      | Except.error msg => Except.error msg
      | Except.ok timestamp =>
        Except.ok {
          callId := callEvent.callId
          peerId := callEvent.peerId
          ringerId := callEvent.ringerId
          mode := callEvent.mode
          type := callEvent.type
          direction := callEvent.direction
          timestamp := timestamp
          status := status }

/-- Wire event values of `Proto.SyncMessage.CallEvent.Event`. -/
inductive ProtoCallEventKind where
  | ACCEPTED
  | NOT_ACCEPTED
  | DELETE
  deriving DecidableEq, Repr, Fintype

/-- Wire call types of `Proto.SyncMessage.CallEvent.Type`. -/
inductive ProtoCallEventType where
  | AUDIO_CALL
  | VIDEO_CALL
  | GROUP_CALL
  | AD_HOC_CALL
  deriving DecidableEq, Repr, Fintype

/-- Wire directions of `Proto.SyncMessage.CallEvent.Direction`. -/
inductive ProtoCallEventDirection where
  | INCOMING
  | OUTGOING
  deriving DecidableEq, Repr, Fintype

/-- `directionToProto` (lines 282-285). -/
def directionToProto (direction : CallDirection) : ProtoCallEventDirection :=
  match direction with
  | CallDirection.Incoming => ProtoCallEventDirection.INCOMING
  | CallDirection.Outgoing => ProtoCallEventDirection.OUTGOING

/-- `typeToProto` (lines 287-292). -/
def typeToProto (type : CallType) : ProtoCallEventType :=
  match type with
  | CallType.Audio => ProtoCallEventType.AUDIO_CALL
  | CallType.Video => ProtoCallEventType.VIDEO_CALL
  | CallType.Group => ProtoCallEventType.GROUP_CALL
  | CallType.Adhoc => ProtoCallEventType.AD_HOC_CALL

/-- `statusToProto` (lines 294-308): which statuses have a wire
representation, and which wire event each maps to (`null` = not syncable). -/
def statusToProto (status : CallStatus) : Option ProtoCallEventKind :=
  match status with
  | CallStatusValue.Accepted => some ProtoCallEventKind.ACCEPTED
  | CallStatusValue.Declined => some ProtoCallEventKind.NOT_ACCEPTED
  | CallStatusValue.Deleted => some ProtoCallEventKind.DELETE
  | CallStatusValue.Missed => none
  | CallStatusValue.Pending => none
  | CallStatusValue.GenericGroupCall => none
  | CallStatusValue.OutgoingRing => none
  | CallStatusValue.Ringing => none
  | CallStatusValue.Joined => none
  | CallStatusValue.JoinedAdhoc => some ProtoCallEventKind.ACCEPTED

/-- `shouldSyncStatus` (lines 310-312). -/
def shouldSyncStatus (callStatus : CallStatus) : Bool :=
  (statusToProto callStatus).isSome

/-- The outbound `Proto.SyncMessage.CallEvent` payload built by
`getProtoForCallHistory`. The `peerId` bytes encoding (UUID / base64) is kept
as the raw peer-identifier string; `callId` and `timestamp` keep their record
values. -/
structure ProtoCallEvent where
  peerId : String
  callId : String
  type : ProtoCallEventType
  direction : ProtoCallEventDirection
  event : ProtoCallEventKind
  timestamp : Nat
  deriving DecidableEq, Repr

/-- `getProtoForCallHistory` (lines 325-345): assert the status is syncable,
then build the wire event. -/
def getProtoForCallHistory (callHistory : CallHistoryDetails) :
    Except String ProtoCallEvent :=
  match statusToProto callHistory.status with
  | none => Except.error "getProtoForCallHistory: Cannot create proto for status"
  | some event =>
    Except.ok {
      peerId := callHistory.peerId
      callId := callHistory.callId
      type := typeToProto callHistory.type
      direction := directionToProto callHistory.direction
      event := event
      timestamp := callHistory.timestamp }

/-- `updateRemoteCallHistory` (lines 1155-1198): when the status is not
syncable the function returns before building anything (`none` = no sync job
enqueued); otherwise it enqueues exactly the payload of
`getProtoForCallHistory` (errors are caught and logged: nothing enqueued). -/
def updateRemoteCallHistory (callHistory : CallHistoryDetails) :
    Option ProtoCallEvent :=
  if ¬shouldSyncStatus callHistory.status then
    none
  else
    match getProtoForCallHistory callHistory with
    | Except.ok proto => some proto
    | Except.error _ => none

/-- Outcomes of `updateLocalGroupCallHistoryTimestamp` (lines 1314-1357):
`noConversation`/`noRecord` are the early `null` returns (nothing written);
`keptExisting` returns the prior record without saving; `savedUpdated` is the
`saveCallHistory` call (which returns the record it was given). -/
inductive GroupTimestampOutcome where
  | noConversation
  | noRecord
  | keptExisting (record : CallHistoryDetails)
  | savedUpdated (record : CallHistoryDetails)
  deriving DecidableEq, Repr

/-- The record carried by a `GroupTimestampOutcome`, when there is one. -/
def GroupTimestampOutcome.record : GroupTimestampOutcome → Option CallHistoryDetails
  | GroupTimestampOutcome.noConversation => none
  | GroupTimestampOutcome.noRecord => none
  | GroupTimestampOutcome.keptExisting r => some r
  | GroupTimestampOutcome.savedUpdated r => some r

/-- `updateLocalGroupCallHistoryTimestamp` (lines 1314-1357), with the
conversation lookup and the stored record load made explicit inputs. -/
def updateLocalGroupCallHistoryTimestamp (conversationFound : Bool)
    (prevCallHistory : Option CallHistoryDetails) (timestamp : Nat) :
    GroupTimestampOutcome :=
  if ¬conversationFound then
    GroupTimestampOutcome.noConversation
  else
    match prevCallHistory with
    -- We don't have all the details to add new call history here
    | none => GroupTimestampOutcome.noRecord
    | some prev =>
      if timestamp ≥ prev.timestamp then
        GroupTimestampOutcome.keptExisting prev
      else
        GroupTimestampOutcome.savedUpdated { prev with timestamp := timestamp }

-- Helper lemmas
-- -------------

/-- Each per-mode status machine is idempotent on success: feeding the
resulting status back in with the same event and direction reproduces it. -/
theorem transitionStatus_ok_idem :
    ∀ (m : CallMode) (s : Option CallStatus) (e : CallEvent)
      (d : CallDirection) (s1 : CallStatus),
      transitionStatus m s e d = Except.ok s1 →
        transitionStatus m (some s1) e d = Except.ok s1 := by
  decide

/-- With a prior record, `transitionTimestamp` never fails and returns either
the prior timestamp or the max of event and prior timestamps. -/
theorem transitionTimestamp_some_eq_or_max (ch : CallHistoryDetails)
    (ce : CallEventDetails) :
    transitionTimestamp (some ch) ce = Except.ok ch.timestamp ∨
      transitionTimestamp (some ch) ce =
        Except.ok (Nat.max ce.timestamp ch.timestamp) := by
  rcases ch with ⟨cid, pid, rid, m, t, d, st, ts⟩
  cases st <;> simp [transitionTimestamp] <;> tauto

/-- The identity-assert block succeeds exactly when all identity fields of the
event agree with the prior record (a `null` event `ringerId` is tolerated). -/
theorem identityAsserts_ok_iff (ch : CallHistoryDetails)
    (ce : CallEventDetails) :
    transitionIdentityAsserts (some ch) ce = Except.ok () ↔
      (ch.callId = ce.callId ∧ ch.peerId = ce.peerId ∧
        (ce.ringerId = none ∨ ch.ringerId = ce.ringerId) ∧
        ch.direction = ce.direction ∧ ch.type = ce.type ∧
        ch.mode = ce.mode) := by
  simp only [transitionIdentityAsserts]
  repeat' split
  all_goals simp_all

-- Claim theorems
-- --------------

/-- C1: deletion is absorbing. For every call mode, prior status, event and
direction, a delete event (local or remote) or a `Deleted` prior status makes
all three transition functions return `Deleted`; and with a prior record whose
status is `Deleted`, `transitionTimestamp` returns the prior timestamp
unchanged. -/
theorem c1_deletion_absorbing :
    (∀ (s : Option CallStatus) (e : CallEvent) (d : CallDirection),
      (e = CallEvent.remote RemoteCallEvent.Delete ∨
          e = CallEvent.loc LocalCallEvent.Delete ∨
          s = some CallStatusValue.Deleted) →
        transitionDirectCallStatus s e d = Except.ok CallStatusValue.Deleted ∧
        transitionGroupCallStatus s e d = Except.ok CallStatusValue.Deleted ∧
        transitionAdhocCallStatus s e d = Except.ok CallStatusValue.Deleted) ∧
    (∀ (ch : CallHistoryDetails) (ce : CallEventDetails),
      ch.status = CallStatusValue.Deleted →
        transitionTimestamp (some ch) ce = Except.ok ch.timestamp) := by
  constructor
  · decide
  · intro ch ce h
    rcases ch with ⟨cid, pid, rid, m, t, d, st, ts⟩
    simp only at h
    subst h
    simp [transitionTimestamp]

/-- Witness for C1 at concrete inputs. -/
theorem c1_deletion_absorbing_witness :
    transitionDirectCallStatus (some CallStatusValue.Pending)
        (CallEvent.loc LocalCallEvent.Delete) CallDirection.Incoming =
      Except.ok CallStatusValue.Deleted ∧
    transitionTimestamp
        (some { callId := "1", peerId := "p", ringerId := none,
                mode := CallMode.Direct, type := CallType.Audio,
                direction := CallDirection.Incoming,
                status := CallStatusValue.Deleted, timestamp := 100 })
        { callId := "1", peerId := "p", ringerId := none,
          mode := CallMode.Direct, type := CallType.Audio,
          direction := CallDirection.Incoming,
          event := CallEvent.loc LocalCallEvent.Missed, timestamp := 500,
          eventSource := "test" } = Except.ok 100 := by
  refine ⟨(c1_deletion_absorbing.1 _ _ CallDirection.Incoming (by decide)).1, ?_⟩
  exact c1_deletion_absorbing.2 _ _ (by decide)

/-- C3 counterexample: with prior group status `Accepted` (or `Deleted`), a
remote `NotAccepted` event does not raise an error — the sticky/absorbing
checks run first and return `ok`. -/
theorem c3_group_notAccepted_counterexample :
    transitionGroupCallStatus (some CallStatusValue.Accepted)
        (CallEvent.remote RemoteCallEvent.NotAccepted) CallDirection.Incoming =
      Except.ok CallStatusValue.Accepted ∧
    transitionGroupCallStatus (some CallStatusValue.Deleted)
        (CallEvent.remote RemoteCallEvent.NotAccepted) CallDirection.Incoming =
      Except.ok CallStatusValue.Deleted := by
  decide

/-- C3 amended: for every prior status other than `Deleted` and `Accepted`
(including no prior record), a Group-mode remote `NotAccepted` event raises
the "Group calls shouldn't send" error. -/
theorem c3_group_notAccepted_amended :
    ∀ (s : Option CallStatus) (d : CallDirection),
      s ≠ some CallStatusValue.Deleted → s ≠ some CallStatusValue.Accepted →
        transitionGroupCallStatus s
            (CallEvent.remote RemoteCallEvent.NotAccepted) d =
          Except.error
            "callHistoryDetails: Group calls shouldn't send NotAccepted" := by
  decide

/-- Witness for the amended C3 at a concrete input. -/
theorem c3_group_notAccepted_amended_witness :
    transitionGroupCallStatus (some CallStatusValue.Ringing)
        (CallEvent.remote RemoteCallEvent.NotAccepted) CallDirection.Incoming =
      Except.error
        "callHistoryDetails: Group calls shouldn't send NotAccepted" :=
  c3_group_notAccepted_amended (some CallStatusValue.Ringing)
    CallDirection.Incoming (by decide) (by decide)

/-- C4: with a prior record in an accepted/joined status (`Accepted`,
`Joined`, `JoinedAdhoc`), the timestamp becomes `max(event, prior)` exactly
when the event is the remote `Accepted` event, and stays frozen otherwise. -/
theorem c4_accepted_timestamp (ch : CallHistoryDetails)
    (ce : CallEventDetails)
    (h : ch.status = CallStatusValue.Accepted ∨
      ch.status = CallStatusValue.Joined ∨
      ch.status = CallStatusValue.JoinedAdhoc) :
    transitionTimestamp (some ch) ce =
      Except.ok
        (if ce.event = CallEvent.remote RemoteCallEvent.Accepted then
          Nat.max ce.timestamp ch.timestamp
        else ch.timestamp) := by
  rcases ch with ⟨cid, pid, rid, m, t, d, st, ts⟩
  simp only at h
  rcases h with h | h | h <;> subst h <;> simp [transitionTimestamp] <;>
    split <;> simp_all

/-- Witness for C4 at concrete inputs. -/
theorem c4_accepted_timestamp_witness :
    transitionTimestamp
        (some { callId := "1", peerId := "p", ringerId := none,
                mode := CallMode.Group, type := CallType.Group,
                direction := CallDirection.Incoming,
                status := CallStatusValue.Accepted, timestamp := 500 })
        { callId := "1", peerId := "p", ringerId := none,
          mode := CallMode.Group, type := CallType.Group,
          direction := CallDirection.Incoming,
          event := CallEvent.remote RemoteCallEvent.Accepted,
          timestamp := 600, eventSource := "test" } = Except.ok 600 := by
  have h := c4_accepted_timestamp
    { callId := "1", peerId := "p", ringerId := none,
      mode := CallMode.Group, type := CallType.Group,
      direction := CallDirection.Incoming,
      status := CallStatusValue.Accepted, timestamp := 500 }
    { callId := "1", peerId := "p", ringerId := none,
      mode := CallMode.Group, type := CallType.Group,
      direction := CallDirection.Incoming,
      event := CallEvent.remote RemoteCallEvent.Accepted,
      timestamp := 600, eventSource := "test" } (by decide)
  simpa using h

/-- C5: with a prior record in a transient status (`Pending`, `Missed`,
`GenericGroupCall`, `OutgoingRing`, `Ringing`), the new timestamp is
`max(event, prior)` for every event, and in particular never decreases. -/
theorem c5_transient_timestamp (ch : CallHistoryDetails)
    (ce : CallEventDetails)
    (h : ch.status = CallStatusValue.Pending ∨
      ch.status = CallStatusValue.Missed ∨
      ch.status = CallStatusValue.GenericGroupCall ∨
      ch.status = CallStatusValue.OutgoingRing ∨
      ch.status = CallStatusValue.Ringing) :
    transitionTimestamp (some ch) ce =
      Except.ok (Nat.max ce.timestamp ch.timestamp) ∧
    ch.timestamp ≤ Nat.max ce.timestamp ch.timestamp := by
  refine ⟨?_, Nat.le_max_right _ _⟩
  rcases ch with ⟨cid, pid, rid, m, t, d, st, ts⟩
  simp only at h
  rcases h with h | h | h | h | h <;> subst h <;> simp [transitionTimestamp]

/-- Witness for C5 at concrete inputs. -/
theorem c5_transient_timestamp_witness :
    transitionTimestamp
        (some { callId := "1", peerId := "p", ringerId := none,
                mode := CallMode.Direct, type := CallType.Audio,
                direction := CallDirection.Incoming,
                status := CallStatusValue.Pending, timestamp := 100 })
        { callId := "1", peerId := "p", ringerId := none,
          mode := CallMode.Direct, type := CallType.Audio,
          direction := CallDirection.Incoming,
          event := CallEvent.loc LocalCallEvent.Hangup, timestamp := 150,
          eventSource := "test" } = Except.ok 150 := by
  have h := (c5_transient_timestamp
    { callId := "1", peerId := "p", ringerId := none,
      mode := CallMode.Direct, type := CallType.Audio,
      direction := CallDirection.Incoming,
      status := CallStatusValue.Pending, timestamp := 100 }
    { callId := "1", peerId := "p", ringerId := none,
      mode := CallMode.Direct, type := CallType.Audio,
      direction := CallDirection.Incoming,
      event := CallEvent.loc LocalCallEvent.Hangup, timestamp := 150,
      eventSource := "test" } (by decide)).1
  simpa using h

/-- C7: for a Direct-mode transition on a prior status that is neither
`Deleted` nor `Accepted` (including no prior), a local `Hangup` yields
`Declined` when incoming and `Missed` when outgoing, and a local
`RemoteHangup` yields `Missed` when incoming and `Declined` when outgoing;
and scenario B: prior `{Direct, Pending, ts 100}` with local `Hangup`
(incoming, ts 150) yields `Declined` at timestamp 150. -/
theorem c7_direct_hangup :
    (∀ (s : Option CallStatus) (d : CallDirection),
      s ≠ some CallStatusValue.Deleted → s ≠ some CallStatusValue.Accepted →
        transitionDirectCallStatus s (CallEvent.loc LocalCallEvent.Hangup) d =
          Except.ok
            (if d = CallDirection.Incoming then CallStatusValue.Declined
            else CallStatusValue.Missed) ∧
        transitionDirectCallStatus s
            (CallEvent.loc LocalCallEvent.RemoteHangup) d =
          Except.ok
            (if d = CallDirection.Incoming then CallStatusValue.Missed
            else CallStatusValue.Declined)) ∧
    transitionCallHistory
        (some { callId := "1", peerId := "p", ringerId := none,
                mode := CallMode.Direct, type := CallType.Audio,
                direction := CallDirection.Incoming,
                status := CallStatusValue.Pending, timestamp := 100 })
        { callId := "1", peerId := "p", ringerId := none,
          mode := CallMode.Direct, type := CallType.Audio,
          direction := CallDirection.Incoming,
          event := CallEvent.loc LocalCallEvent.Hangup, timestamp := 150,
          eventSource := "test" } =
      Except.ok { callId := "1", peerId := "p", ringerId := none,
                  mode := CallMode.Direct, type := CallType.Audio,
                  direction := CallDirection.Incoming,
                  status := CallStatusValue.Declined, timestamp := 150 } := by
  constructor
  · decide
  · decide

/-- Witness for C7 at a concrete input. -/
theorem c7_direct_hangup_witness :
    transitionDirectCallStatus (some CallStatusValue.Pending)
        (CallEvent.loc LocalCallEvent.Hangup) CallDirection.Incoming =
      Except.ok CallStatusValue.Declined := by
  have h := (c7_direct_hangup.1 (some CallStatusValue.Pending)
    CallDirection.Incoming (by decide) (by decide)).1
  simpa using h

/-- C2 counterexample: an event whose `ringerId` is `null` passes the
assertion but the result record is built from the event's `ringerId`, so a
previously known `ringerId` is erased rather than preserved. -/
theorem c2_ringerId_erased_counterexample :
    transitionCallHistory
        (some { callId := "1", peerId := "p", ringerId := some "r",
                mode := CallMode.Direct, type := CallType.Audio,
                direction := CallDirection.Incoming,
                status := CallStatusValue.Pending, timestamp := 100 })
        { callId := "1", peerId := "p", ringerId := none,
          mode := CallMode.Direct, type := CallType.Audio,
          direction := CallDirection.Incoming,
          event := CallEvent.remote RemoteCallEvent.Accepted,
          timestamp := 150, eventSource := "test" } =
      Except.ok { callId := "1", peerId := "p", ringerId := none,
                  mode := CallMode.Direct, type := CallType.Audio,
                  direction := CallDirection.Incoming,
                  status := CallStatusValue.Accepted, timestamp := 150 } := by
  decide

/-- C2 amended: a successful transition always gives the result the EVENT's
`ringerId`. An event carrying a non-null `ringerId` different from the prior's
non-null `ringerId` fails the assertion (so a known `ringerId` is preserved by
any event that carries one), but an event with a `null` `ringerId` erases a
previously known `ringerId` in the result. -/
theorem c2_ringerId_amended :
    (∀ (ch : CallHistoryDetails) (ce : CallEventDetails)
        (r : CallHistoryDetails),
      transitionCallHistory (some ch) ce = Except.ok r →
        r.ringerId = ce.ringerId ∧
        (ce.ringerId ≠ none → r.ringerId = ch.ringerId)) ∧
    (∀ (ch : CallHistoryDetails) (ce : CallEventDetails),
      ch.callId = ce.callId → ch.peerId = ce.peerId →
      ce.ringerId ≠ none → ch.ringerId ≠ ce.ringerId →
        transitionCallHistory (some ch) ce =
          Except.error "ringerId must be same if it exists") := by
  constructor
  · intro ch ce r h
    rw [transitionCallHistory] at h
    cases ha : transitionIdentityAsserts (some ch) ce with
    | error msg => rw [ha] at h; simp at h
    | ok u =>
      cases u
      rw [ha] at h
      cases hs : transitionStatus ce.mode ((some ch).map CallHistoryDetails.status)
          ce.event ce.direction with
      | error msg => rw [hs] at h; simp at h
      | ok s1 =>
        rw [hs] at h
        cases ht : transitionTimestamp (some ch) ce with
        | error msg => rw [ht] at h; simp at h
        | ok t1 =>
          rw [ht] at h
          simp only [Except.ok.injEq] at h
          subst h
          refine ⟨rfl, ?_⟩
          intro hne
          have hall := (identityAsserts_ok_iff ch ce).mp ha
          rcases hall.2.2.1 with hnone | heq
          · exact absurd hnone hne
          · simpa using heq.symm
  · intro ch ce h1 h2 h3 h4
    rw [transitionCallHistory]
    have : transitionIdentityAsserts (some ch) ce =
        Except.error "ringerId must be same if it exists" := by
      simp [transitionIdentityAsserts, h1, h2, h3, h4]
    rw [this]

/-- Witness for the amended C2 at concrete inputs. -/
theorem c2_ringerId_amended_witness :
    transitionCallHistory
        (some { callId := "1", peerId := "p", ringerId := some "r",
                mode := CallMode.Direct, type := CallType.Audio,
                direction := CallDirection.Incoming,
                status := CallStatusValue.Pending, timestamp := 100 })
        { callId := "1", peerId := "p", ringerId := some "q",
          mode := CallMode.Direct, type := CallType.Audio,
          direction := CallDirection.Incoming,
          event := CallEvent.remote RemoteCallEvent.Accepted,
          timestamp := 150, eventSource := "test" } =
      Except.error "ringerId must be same if it exists" :=
  c2_ringerId_amended.2
    { callId := "1", peerId := "p", ringerId := some "r",
      mode := CallMode.Direct, type := CallType.Audio,
      direction := CallDirection.Incoming,
      status := CallStatusValue.Pending, timestamp := 100 }
    { callId := "1", peerId := "p", ringerId := some "q",
      mode := CallMode.Direct, type := CallType.Audio,
      direction := CallDirection.Incoming,
      event := CallEvent.remote RemoteCallEvent.Accepted,
      timestamp := 150, eventSource := "test" }
    (by decide) (by decide) (by decide) (by decide)

/-- C8: with a prior record, a mismatch in `callId`, `peerId`, `direction`,
`type` or `mode` between event and record makes `transitionCallHistory` fail
with an assertion error; no record is returned. -/
theorem c8_identity_mismatch (ch : CallHistoryDetails)
    (ce : CallEventDetails)
    (h : ch.callId ≠ ce.callId ∨ ch.peerId ≠ ce.peerId ∨
      ch.direction ≠ ce.direction ∨ ch.type ≠ ce.type ∨
      ch.mode ≠ ce.mode) :
    ∃ msg, transitionCallHistory (some ch) ce = Except.error msg := by
  cases ha : transitionIdentityAsserts (some ch) ce with
  | error msg =>
    exact ⟨msg, by rw [transitionCallHistory, ha]⟩
  | ok u =>
    exfalso
    cases u
    have hall := (identityAsserts_ok_iff ch ce).mp ha
    rcases h with h | h | h | h | h
    · exact h hall.1
    · exact h hall.2.1
    · exact h hall.2.2.2.1
    · exact h hall.2.2.2.2.1
    · exact h hall.2.2.2.2.2

/-- Witness for C8 at a concrete input. -/
theorem c8_identity_mismatch_witness :
    ∃ msg,
      transitionCallHistory
          (some { callId := "1", peerId := "p", ringerId := none,
                  mode := CallMode.Direct, type := CallType.Audio,
                  direction := CallDirection.Incoming,
                  status := CallStatusValue.Pending, timestamp := 100 })
          { callId := "2", peerId := "p", ringerId := none,
            mode := CallMode.Direct, type := CallType.Audio,
            direction := CallDirection.Incoming,
            event := CallEvent.loc LocalCallEvent.Missed, timestamp := 150,
            eventSource := "test" } = Except.error msg :=
  c8_identity_mismatch
    { callId := "1", peerId := "p", ringerId := none,
      mode := CallMode.Direct, type := CallType.Audio,
      direction := CallDirection.Incoming,
      status := CallStatusValue.Pending, timestamp := 100 }
    { callId := "2", peerId := "p", ringerId := none,
      mode := CallMode.Direct, type := CallType.Audio,
      direction := CallDirection.Incoming,
      event := CallEvent.loc LocalCallEvent.Missed, timestamp := 150,
      eventSource := "test" }
    (Or.inl (by decide))

/-- C9: a status is syncable exactly when it is `Accepted`, `Declined`,
`Deleted` or `JoinedAdhoc`, mapped to the wire events `ACCEPTED`,
`NOT_ACCEPTED`, `DELETE`, `ACCEPTED` respectively; for a record in any of the
remaining statuses (`Pending`, `Missed`, `Ringing`, `GenericGroupCall`,
`OutgoingRing`, `Joined`), `shouldSyncStatus` is false and
`updateRemoteCallHistory` enqueues nothing. -/
theorem c9_sync_statuses :
    (∀ s : CallStatus,
      shouldSyncStatus s = true ↔
        (s = CallStatusValue.Accepted ∨ s = CallStatusValue.Declined ∨
          s = CallStatusValue.Deleted ∨ s = CallStatusValue.JoinedAdhoc)) ∧
    statusToProto CallStatusValue.Accepted = some ProtoCallEventKind.ACCEPTED ∧
    statusToProto CallStatusValue.Declined =
      some ProtoCallEventKind.NOT_ACCEPTED ∧
    statusToProto CallStatusValue.Deleted = some ProtoCallEventKind.DELETE ∧
    statusToProto CallStatusValue.JoinedAdhoc =
      some ProtoCallEventKind.ACCEPTED ∧
    (∀ ch : CallHistoryDetails,
      (ch.status = CallStatusValue.Pending ∨
        ch.status = CallStatusValue.Missed ∨
        ch.status = CallStatusValue.Ringing ∨
        ch.status = CallStatusValue.GenericGroupCall ∨
        ch.status = CallStatusValue.OutgoingRing ∨
        ch.status = CallStatusValue.Joined) →
        shouldSyncStatus ch.status = false ∧
        updateRemoteCallHistory ch = none) := by
  refine ⟨by decide, by decide, by decide, by decide, by decide, ?_⟩
  intro ch h
  rcases ch with ⟨cid, pid, rid, m, t, d, st, ts⟩
  simp only at h
  rcases h with h | h | h | h | h | h <;> subst h <;>
    simp [shouldSyncStatus, statusToProto, updateRemoteCallHistory]

/-- Witness for C9 at concrete inputs. -/
theorem c9_sync_statuses_witness :
    shouldSyncStatus CallStatusValue.Joined = false ∧
    updateRemoteCallHistory
        { callId := "1", peerId := "p", ringerId := none,
          mode := CallMode.Group, type := CallType.Group,
          direction := CallDirection.Incoming,
          status := CallStatusValue.Joined, timestamp := 100 } = none :=
  c9_sync_statuses.2.2.2.2.2
    { callId := "1", peerId := "p", ringerId := none,
      mode := CallMode.Group, type := CallType.Group,
      direction := CallDirection.Incoming,
      status := CallStatusValue.Joined, timestamp := 100 }
    (by decide)

/-- C10: `updateLocalGroupCallHistoryTimestamp` never raises a stored
timestamp: no prior record means nothing is created; a timestamp ≥ the stored
one returns the prior record without saving; only a strictly smaller timestamp
saves a record whose timestamp is the given value and whose other fields are
unchanged — any returned record has timestamp `min(given, stored)` ≤ stored. -/
theorem c10_group_timestamp_monotone (h : CallHistoryDetails) (ts : Nat) :
    updateLocalGroupCallHistoryTimestamp true none ts =
      GroupTimestampOutcome.noRecord ∧
    (h.timestamp ≤ ts →
      updateLocalGroupCallHistoryTimestamp true (some h) ts =
        GroupTimestampOutcome.keptExisting h) ∧
    (ts < h.timestamp →
      updateLocalGroupCallHistoryTimestamp true (some h) ts =
        GroupTimestampOutcome.savedUpdated { h with timestamp := ts }) ∧
    (∀ r : CallHistoryDetails,
      (updateLocalGroupCallHistoryTimestamp true (some h) ts).record =
          some r →
        r.timestamp = Nat.min ts h.timestamp ∧ r.timestamp ≤ h.timestamp ∧
        r.callId = h.callId ∧ r.peerId = h.peerId ∧
        r.ringerId = h.ringerId ∧ r.mode = h.mode ∧ r.type = h.type ∧
        r.direction = h.direction ∧ r.status = h.status) := by
  refine ⟨by simp [updateLocalGroupCallHistoryTimestamp], ?_, ?_, ?_⟩
  · intro hle
    simp [updateLocalGroupCallHistoryTimestamp, hle]
  · intro hlt
    simp [updateLocalGroupCallHistoryTimestamp, Nat.not_le.mpr hlt,
      Nat.le_of_lt hlt]
  · intro r hr
    by_cases hle : h.timestamp ≤ ts
    · simp [updateLocalGroupCallHistoryTimestamp, hle,
        GroupTimestampOutcome.record] at hr
      subst hr
      simp [Nat.min_eq_right hle]
    · have hlt := Nat.not_le.mp hle
      simp [updateLocalGroupCallHistoryTimestamp, Nat.not_le.mpr hlt,
        Nat.le_of_lt hlt, GroupTimestampOutcome.record] at hr
      subst hr
      simp [Nat.min_eq_left (Nat.le_of_lt hlt), Nat.le_of_lt hlt]

/-- Witness for C10 at concrete inputs. -/
theorem c10_group_timestamp_monotone_witness :
    updateLocalGroupCallHistoryTimestamp true
        (some { callId := "1", peerId := "p", ringerId := none,
                mode := CallMode.Group, type := CallType.Group,
                direction := CallDirection.Incoming,
                status := CallStatusValue.Joined, timestamp := 100 }) 40 =
      GroupTimestampOutcome.savedUpdated
        { callId := "1", peerId := "p", ringerId := none,
          mode := CallMode.Group, type := CallType.Group,
          direction := CallDirection.Incoming,
          status := CallStatusValue.Joined, timestamp := 40 } :=
  (c10_group_timestamp_monotone
    { callId := "1", peerId := "p", ringerId := none,
      mode := CallMode.Group, type := CallType.Group,
      direction := CallDirection.Incoming,
      status := CallStatusValue.Joined, timestamp := 100 } 40).2.2.1
    (by decide)

/-- When the asserts, the status machine and the timestamp merge all succeed,
`transitionCallHistory` returns the record built from the event's identity
fields with the computed status and timestamp. -/
theorem transitionCallHistory_ok_of_parts
    (callHistory : Option CallHistoryDetails) (ce : CallEventDetails)
    (hA : transitionIdentityAsserts callHistory ce = Except.ok ())
    (s1 : CallStatus)
    (hS : transitionStatus ce.mode (callHistory.map CallHistoryDetails.status)
      ce.event ce.direction = Except.ok s1)
    (t1 : Nat)
    (hT : transitionTimestamp callHistory ce = Except.ok t1) :
    transitionCallHistory callHistory ce =
      Except.ok ⟨ce.callId, ce.peerId, ce.ringerId, ce.mode, ce.type,
        ce.direction, s1, t1⟩ := by
  rw [transitionCallHistory, hA, hS, hT]

/-- C6 counterexample: replaying the same event is not idempotent. With prior
`{Group, Joined, ts 100}` and event `{Started (local), ts 200}`, the first
transition freezes the timestamp at 100 (accepted/joined rule) while moving
the status to the transient `GenericGroupCall`; replaying the same event on
that result then raises the timestamp to 200, producing a different record. -/
theorem c6_idempotence_counterexample :
    transitionCallHistory
        (some { callId := "1", peerId := "p", ringerId := none,
                mode := CallMode.Group, type := CallType.Group,
                direction := CallDirection.Incoming,
                status := CallStatusValue.Joined, timestamp := 100 })
        { callId := "1", peerId := "p", ringerId := none,
          mode := CallMode.Group, type := CallType.Group,
          direction := CallDirection.Incoming,
          event := CallEvent.loc LocalCallEvent.Started, timestamp := 200,
          eventSource := "test" } =
      Except.ok { callId := "1", peerId := "p", ringerId := none,
                  mode := CallMode.Group, type := CallType.Group,
                  direction := CallDirection.Incoming,
                  status := CallStatusValue.GenericGroupCall,
                  timestamp := 100 } ∧
    transitionCallHistory
        (some { callId := "1", peerId := "p", ringerId := none,
                mode := CallMode.Group, type := CallType.Group,
                direction := CallDirection.Incoming,
                status := CallStatusValue.GenericGroupCall,
                timestamp := 100 })
        { callId := "1", peerId := "p", ringerId := none,
          mode := CallMode.Group, type := CallType.Group,
          direction := CallDirection.Incoming,
          event := CallEvent.loc LocalCallEvent.Started, timestamp := 200,
          eventSource := "test" } =
      Except.ok { callId := "1", peerId := "p", ringerId := none,
                  mode := CallMode.Group, type := CallType.Group,
                  direction := CallDirection.Incoming,
                  status := CallStatusValue.GenericGroupCall,
                  timestamp := 200 } ∧
    ({ callId := "1", peerId := "p", ringerId := none,
       mode := CallMode.Group, type := CallType.Group,
       direction := CallDirection.Incoming,
       status := CallStatusValue.GenericGroupCall,
       timestamp := 100 } : CallHistoryDetails) ≠
      { callId := "1", peerId := "p", ringerId := none,
        mode := CallMode.Group, type := CallType.Group,
        direction := CallDirection.Incoming,
        status := CallStatusValue.GenericGroupCall, timestamp := 200 } := by
  refine ⟨by decide, by decide, by decide⟩

/-- C6 amended: whenever a first transition succeeds, replaying the same event
on its result also succeeds and reproduces the same status; the full record
(timestamp included) is reproduced whenever the event's timestamp is at most
the first result's timestamp — in particular whenever there was no prior
record. (The counterexample forces the timestamp condition: replaying an event
with a larger timestamp after a frozen-timestamp status moved to a transient
one raises the timestamp.) -/
theorem c6_idempotent_amended (prior : Option CallHistoryDetails)
    (ce : CallEventDetails) (r1 : CallHistoryDetails)
    (h : transitionCallHistory prior ce = Except.ok r1) :
    ∃ r2, transitionCallHistory (some r1) ce = Except.ok r2 ∧
      r2.status = r1.status ∧
      (ce.timestamp ≤ r1.timestamp → r2 = r1) := by
  rw [transitionCallHistory] at h
  cases ha : transitionIdentityAsserts prior ce with
  | error msg => rw [ha] at h; simp at h
  | ok u =>
    cases u
    rw [ha] at h
    cases hs : transitionStatus ce.mode (prior.map CallHistoryDetails.status)
        ce.event ce.direction with
    | error msg => rw [hs] at h; simp at h
    | ok s1 =>
      rw [hs] at h
      cases ht : transitionTimestamp prior ce with
      | error msg => rw [ht] at h; simp at h
      | ok t1 =>
        rw [ht] at h
        simp only [Except.ok.injEq] at h
        subst h
        have hA2 : transitionIdentityAsserts
            (some ⟨ce.callId, ce.peerId, ce.ringerId, ce.mode, ce.type,
              ce.direction, s1, t1⟩) ce = Except.ok () := by
          simp [transitionIdentityAsserts]
        have hS2 : transitionStatus ce.mode
            ((some (⟨ce.callId, ce.peerId, ce.ringerId, ce.mode, ce.type,
              ce.direction, s1, t1⟩ : CallHistoryDetails)).map
                CallHistoryDetails.status)
            ce.event ce.direction = Except.ok s1 := by
          simpa using transitionStatus_ok_idem ce.mode
            (prior.map CallHistoryDetails.status) ce.event ce.direction s1 hs
        rcases transitionTimestamp_some_eq_or_max
            ⟨ce.callId, ce.peerId, ce.ringerId, ce.mode, ce.type,
              ce.direction, s1, t1⟩ ce with ht2 | ht2
        · exact ⟨⟨ce.callId, ce.peerId, ce.ringerId, ce.mode, ce.type,
            ce.direction, s1, t1⟩,
            transitionCallHistory_ok_of_parts _ _ hA2 _ hS2 _ ht2,
            rfl, fun _ => rfl⟩
        · refine ⟨⟨ce.callId, ce.peerId, ce.ringerId, ce.mode, ce.type,
            ce.direction, s1, Nat.max ce.timestamp t1⟩,
            transitionCallHistory_ok_of_parts _ _ hA2 _ hS2 _ ht2, rfl, ?_⟩
          intro hle
          have hmax : Nat.max ce.timestamp t1 = t1 := Nat.max_eq_right hle
          rw [hmax]

/-- Witness for the amended C6 at a concrete input (no prior record). -/
theorem c6_idempotent_amended_witness :
    ∃ r2, transitionCallHistory
        (some { callId := "1", peerId := "p", ringerId := none,
                mode := CallMode.Adhoc, type := CallType.Adhoc,
                direction := CallDirection.Incoming,
                status := CallStatusValue.JoinedAdhoc, timestamp := 20 })
        { callId := "1", peerId := "p", ringerId := none,
          mode := CallMode.Adhoc, type := CallType.Adhoc,
          direction := CallDirection.Incoming,
          event := CallEvent.loc LocalCallEvent.Accepted, timestamp := 20,
          eventSource := "test" } = Except.ok r2 ∧
      r2.status =
        ({ callId := "1", peerId := "p", ringerId := none,
           mode := CallMode.Adhoc, type := CallType.Adhoc,
           direction := CallDirection.Incoming,
           status := CallStatusValue.JoinedAdhoc,
           timestamp := 20 } : CallHistoryDetails).status ∧
      (({ callId := "1", peerId := "p", ringerId := none,
          mode := CallMode.Adhoc, type := CallType.Adhoc,
          direction := CallDirection.Incoming,
          event := CallEvent.loc LocalCallEvent.Accepted, timestamp := 20,
          eventSource := "test" } : CallEventDetails).timestamp ≤
          ({ callId := "1", peerId := "p", ringerId := none,
             mode := CallMode.Adhoc, type := CallType.Adhoc,
             direction := CallDirection.Incoming,
             status := CallStatusValue.JoinedAdhoc,
             timestamp := 20 } : CallHistoryDetails).timestamp →
        r2 = { callId := "1", peerId := "p", ringerId := none,
               mode := CallMode.Adhoc, type := CallType.Adhoc,
               direction := CallDirection.Incoming,
               status := CallStatusValue.JoinedAdhoc, timestamp := 20 }) :=
  c6_idempotent_amended none
    { callId := "1", peerId := "p", ringerId := none,
      mode := CallMode.Adhoc, type := CallType.Adhoc,
      direction := CallDirection.Incoming,
      event := CallEvent.loc LocalCallEvent.Accepted, timestamp := 20,
      eventSource := "test" }
    { callId := "1", peerId := "p", ringerId := none,
      mode := CallMode.Adhoc, type := CallType.Adhoc,
      direction := CallDirection.Incoming,
      status := CallStatusValue.JoinedAdhoc, timestamp := 20 }
    (by decide)

end CallDisposition
